import Mathlib

/-!
Shallow embedding of the websocket session protocol of the ryzom
repository, file ryzom/consumers.py (class Consumer), together with
proofs about the behaviour of its message handlers.

JSON values are modelled by the inductive type Json; Python dictionary
subscription (raising KeyError) and dict.get are modelled by getKey and
get?.  Each handler method of the Consumer class becomes a function from
a consumer state and the parsed message to an Outcome recording the
messages sent so far, the state reached, and the Python exception that
escaped the handler, if any.  The database rows backing the handlers
(Clients, Subscriptions, Publications, defined in ryzom/models.py) are
modelled as lists inside the consumer state; server methods, the route
table and the view classes (external collaborators, spec section 6)
are grouped in an environment record.
-/

namespace Ryzom

/-- Parsed JSON value, as produced by json.loads. Numbers are modelled
as integers (no claim involves floating point). -/
inductive Json where
  | null
  | bool (b : Bool)
  | num (n : Int)
  | str (s : String)
  | arr (items : List Json)
  | obj (fields : List (String × Json))

/-- Dictionary lookup returning an Option, as Python dict.get(k, None)
on an object; returns none on non-objects (callers only apply it to
values already known to be dictionaries). -/
def Json.get? (j : Json) (k : String) : Option Json :=
  match j with
  | .obj fields =>
    match fields.find? (fun f => f.1 == k) with
    | some f => some f.2
    | none => none
  | _ => none

/-- Python truthiness of a parsed JSON value: None, False, 0, empty
string, empty list and empty dict are falsy, everything else truthy. -/
def Json.truthy : Json → Bool
  | .null => false
  | .bool b => b
  | .num n => n != 0
  | .str s => s != ""
  | .arr items => !items.isEmpty
  | .obj fields => !fields.isEmpty

/-- Python exceptions that can escape a handler. keyError models
KeyError (the only one the receive dispatcher catches); doesNotExist
models the Django Model.DoesNotExist raised by objects.get. -/
inductive PyErr where
  | keyError (k : String)
  | typeError
  | attributeError
  | doesNotExist (model : String)
  | multipleObjectsReturned (model : String)

/-- Python dictionary subscription d[k]: KeyError when the key is
absent, TypeError when the subscripted value is not a dictionary. -/
def Json.getKey (j : Json) (k : String) : Except PyErr Json :=
  match j with
  | .obj _ =>
    match j.get? k with
    | some v => .ok v
    | none => .error (.keyError k)
  | _ => .error .typeError

/-- Rendering of a JSON value inside a Python f-string, used only for
the `not recognized` error message of receive.  Atoms are rendered as
Python str() renders them; the rendering of containers is abstracted
(no claim depends on it). -/
def Json.pyStrOf : Json → String
  | .null => "None"
  | .bool true => "True"
  | .bool false => "False"
  | .num n => toString n
  | .str s => s
  | .arr _ => "<list>"
  | .obj _ => "<dict>"

/-- Modelled from the spec: a row of the Clients model of
ryzom/models.py (absent from src/), spec section 3 Connection: opaque
channel token plus optional owning-user reference. -/
structure Client where
  id : Nat
  channel : String
  user : Option Nat

/-- Modelled from the spec: a row of the Subscriptions model of
ryzom/models.py (absent from src/), spec section 3 Subscription:
generated id, publication reference (by name), client-supplied parent
identifier, owning Connection. -/
structure SubRow where
  id : Nat
  publication : String
  parent : Json
  client : Nat

/-- Server-side view instance held by a consumer (ryzom/views.py is
absent from src/): its identity, its view class (the route callback
it was constructed from) and the channel it is bound to. -/
structure View where
  instanceId : Nat
  cls : Nat
  channel : String

/-- Modelled from the spec: observable side effects on collaborators
outside the consumer.  subInit records the call to Subscription.init
(which per spec section 4.3 performs the first full scan and emits
inserted events); subSaved records the save that persists the row;
viewDestroyed and viewCreated record the ondestroy and oncreate hooks
of views. -/
inductive Event where
  | subInit (publication : String) (parent : Json) (clientId : Nat)
  | subSaved (publication : String) (parent : Json) (clientId : Nat) (subId : Nat)
  | viewDestroyed (instanceId : Nat)
  | viewCreated (instanceId : Nat) (cls : Nat) (url : String)

/-- One entry of ddp_urlpatterns: a path pattern and the view class
(url.callback) it routes to; view classes are identified by number. -/
structure Route where
  pattern : String → Bool
  callback : Nat

/-- External collaborators of the consumer, spec section 6: the
registered-methods namespace (server_methods, name to callable), the
route table (ddp_urlpatterns), and the behaviour of view classes:
onurl (navigate, returns its success boolean) and render (markup for
a view of a class created at a url), both indexed by view class. -/
structure Env where
  server_methods : List (String × (Json → Json))
  ddp_urlpatterns : List Route
  onurl : Nat → String → Bool
  render : Nat → String → Json

/-- State of one Consumer instance together with the database tables
it reads and writes: its channel name, the Clients, Subscriptions and
Publications tables (publications carry only their identity, a unique
name), the autoincrement counter for subscription ids, the view
attribute (absent until the first geturl), a counter for view instance
identities, and the trace of collaborator events. -/
structure ConsumerState where
  channel_name : String
  clients : List Client
  subscriptions : List SubRow
  publications : List String
  nextSubId : Nat
  view : Option View
  nextViewId : Nat
  trace : List Event

/-- Result of running one handler: the JSON messages passed to
self.send in order, the state reached, and the exception that escaped
the handler, if any (messages already sent stay sent when an exception
is raised later). -/
structure Outcome where
  sent : List Json
  st : ConsumerState
  err : Option PyErr

/-- Modelled from the spec: Clients.objects.get(channel=...) of the
Django ORM on the Clients model of ryzom/models.py.  Django get
returns the unique matching row and raises DoesNotExist when there is
none (it never returns None) or MultipleObjectsReturned when there are
several. -/
def Clients.get (st : ConsumerState) : Except PyErr Client :=
  match st.clients.filter (fun c => c.channel == st.channel_name) with
  | [c] => .ok c
  | [] => .error (.doesNotExist "Clients")
  | _ => .error (.multipleObjectsReturned "Clients")

/-- Modelled from the spec: Publications.objects.get(name=...) on the
Publications model of ryzom/models.py; publication identity is a
unique name (spec section 3), so the table is the list of names and
get raises DoesNotExist when the requested name is not among them. -/
def Publications.get (pubs : List String) (name : Json) : Except PyErr String :=
  match name with
  | .str s => if pubs.contains s then .ok s else .error (.doesNotExist "Publications")
  | _ => .error (.doesNotExist "Publications")

/-- Python truthiness of a Django model instance: a model instance
defines no custom bool conversion, so it is always truthy.  This keeps
the dead `if not client` branch of recv_subscribe visible in the
embedding. -/
def clientTruthy (_c : Client) : Bool := true

/-- Test whether the first character list starts the second one. -/
def strStarts : List Char → List Char → Bool
  | [], _ => true
  | _ :: _, [] => false
  | k :: ks, c :: cs => k == c && strStarts ks cs

/-- Substring test on character lists, Python `key in s` on strings:
true when the key starts at some position (the empty key is contained
in every string). -/
def strHas (key : List Char) : List Char → Bool
  | [] => key.isEmpty
  | c :: cs => strStarts key (c :: cs) || strHas key cs

/-- Python membership test `key in container` for a string key and a
parsed JSON container: key membership on a dictionary, element
equality on a list (a string compares equal only to the same string),
substring test on a string, and TypeError on the non-iterable values
None, booleans and numbers. -/
def pyContains (container : Json) (key : String) : Except PyErr Bool :=
  match container with
  | .obj fields => .ok (fields.any (fun f => f.1 == key))
  | .arr items =>
    .ok (items.any (fun it => match it with
      | .str s => s == key
      | _ => false))
  | .str s => .ok (strHas key.data s.data)
  | _ => .error .typeError

/-- Consumer.recv_subscribe of ryzom/consumers.py: reads params and
the correlation id, fetches the Clients row for this channel, runs the
Python membership tests `key not in params` for name then _id (error
response on the first absent one, TypeError escaping on non-iterable
params), then subscripts params for name, resolves the Publication,
subscripts params for _id, builds the Subscription, calls init on it,
saves it, and answers Success with the publication name and the new
subscription id. -/
def recv_subscribe (st : ConsumerState) (data : Json) : Outcome :=
  match data.getKey "params" with
  | .error e => ⟨[], st, some e⟩
  | .ok params =>
  match data.getKey "_id" with
  | .error e => ⟨[], st, some e⟩
  | .ok reqId =>
  match Clients.get st with
  | .error e => ⟨[], st, some e⟩
  | .ok client =>
  match pyContains params "name" with
  | .error e => ⟨[], st, some e⟩
  | .ok hasName =>
  if hasName then
    match pyContains params "_id" with
    | .error e => ⟨[], st, some e⟩
    | .ok hasId =>
    if hasId then
      if clientTruthy client then
        match params.getKey "name" with
        | .error e => ⟨[], st, some e⟩
        | .ok nameJson =>
        match Publications.get st.publications nameJson with
        | .error e => ⟨[], st, some e⟩
        | .ok pubName =>
        match params.getKey "_id" with
        | .error e => ⟨[], st, some e⟩
        | .ok parent =>
          let sid := st.nextSubId
          let st1 := { st with
            trace := st.trace ++ [Event.subInit pubName parent client.id] }
          let st2 := { st1 with
            subscriptions :=
              st1.subscriptions ++ [SubRow.mk sid pubName parent client.id],
            nextSubId := sid + 1,
            trace := st1.trace ++ [Event.subSaved pubName parent client.id sid] }
          ⟨[.obj [("_id", reqId), ("type", .str "Success"),
            ("params", .obj [("name", nameJson),
              ("sub_id", .num (Int.ofNat sid))])]],
           st2, none⟩
      else
        ⟨[.obj [("_id", reqId), ("type", .str "Error"),
          ("params", .obj [("name", .str "Client not found"),
            ("message", .str "No client was found for this channel name")])]],
         st, none⟩
    else
      ⟨[.obj [("_id", reqId), ("type", .str "Error"),
        ("params", .obj [("name", .str "Bad format"),
          ("message", .str "Subscription _id not found")])]], st, none⟩
  else
    ⟨[.obj [("_id", reqId), ("type", .str "Error"),
      ("params", .obj [("name", .str "Bad format"),
        ("message", .str "Subscription name not found")])]], st, none⟩

/-- Consumer.recv_unsubscribe of ryzom/consumers.py: echoes an
acknowledgement envelope and changes nothing. -/
def recv_unsubscribe (st : ConsumerState) (data : Json) : Outcome :=
  match data.getKey "params" with
  | .error e => ⟨[], st, some e⟩
  | .ok params =>
  match data.getKey "_id" with
  | .error e => ⟨[], st, some e⟩
  | .ok reqId =>
  match params.getKey "name" with
  | .error e => ⟨[], st, some e⟩
  | .ok nameJson =>
    ⟨[.obj [("_id", reqId), ("type", .str "unsubscribed"),
      ("message", .str "Got unsub"),
      ("params", .obj [("name", nameJson)])]], st, none⟩

/-- Consumer.recv_method of ryzom/consumers.py: looks up the named
attribute of the server_methods namespace; if absent answers a Not
found Error, otherwise calls it on params.params and answers Success
with the return value when it is truthy, Error with that same value
when it is falsy. -/
def recv_method (env : Env) (st : ConsumerState) (data : Json) : Outcome :=
  match data.getKey "_id" with
  | .error e => ⟨[], st, some e⟩
  | .ok reqId =>
  match data.getKey "params" with
  | .error e => ⟨[], st, some e⟩
  | .ok params =>
  match params.getKey "name" with
  | .error e => ⟨[], st, some e⟩
  | .ok nameJson =>
  match nameJson with
  | .str name =>
    match env.server_methods.find? (fun m => m.1 == name) with
    | none =>
      ⟨[.obj [("_id", reqId), ("type", .str "Error"),
        ("params", .obj [("name", .str "Not found"),
          ("message", .str ("Method " ++ name ++ " not found"))])]], st, none⟩
    | some m =>
      match params.getKey "params" with
      | .error e => ⟨[], st, some e⟩
      | .ok arg =>
        let ret := m.2 arg
        if ret.truthy then
          ⟨[.obj [("_id", reqId), ("type", .str "Success"), ("params", ret)]], st, none⟩
        else
          ⟨[.obj [("_id", reqId), ("type", .str "Error"), ("params", ret)]], st, none⟩
  | _ => ⟨[], st, some .typeError⟩

/-- Replacement branch of Consumer.recv_geturl: destroy the current
view if there is one, construct a view of the matched route class
bound to this channel, run its oncreate hook with the path, render it
and answer Success with the markup. -/
def createView (env : Env) (st : ConsumerState) (data : Json) (url : Route)
    (cview : Option View) (to_url : String) : Outcome :=
  let st1 := match cview with
    | some v => { st with trace := st.trace ++ [Event.viewDestroyed v.instanceId] }
    | none => st
  let vid := st1.nextViewId
  let st2 := { st1 with
    view := some (View.mk vid url.callback st1.channel_name),
    nextViewId := vid + 1,
    trace := st1.trace ++ [Event.viewCreated vid url.callback to_url] }
  match data.getKey "_id" with
  | .error e => ⟨[], st2, some e⟩
  | .ok reqId =>
    ⟨[.obj [("_id", reqId), ("type", .str "Success"),
      ("params", env.render url.callback to_url)]], st2, none⟩

/-- Consumer.recv_geturl of ryzom/consumers.py: takes the first route
of ddp_urlpatterns whose pattern matches params.url; when the held
view is an instance of that route class, delegates to its onurl and
answers Success with an empty list only when onurl is truthy;
otherwise replaces the view (createView); when no route matches, does
nothing. -/
def recv_geturl (env : Env) (st : ConsumerState) (data : Json) : Outcome :=
  match data.getKey "params" with
  | .error e => ⟨[], st, some e⟩
  | .ok params =>
  match params.getKey "url" with
  | .error e => ⟨[], st, some e⟩
  | .ok urlJson =>
  match urlJson with
  | .str to_url =>
    match env.ddp_urlpatterns.find? (fun r => r.pattern to_url) with
    | none => ⟨[], st, none⟩
    | some url =>
      match st.view with
      | some cview =>
        if cview.cls == url.callback then
          if env.onurl cview.cls to_url then
            match data.getKey "_id" with
            | .error e => ⟨[], st, some e⟩
            | .ok reqId =>
              ⟨[.obj [("_id", reqId), ("type", .str "Success"),
                ("params", .arr [])]], st, none⟩
          else ⟨[], st, none⟩
        else createView env st data url (some cview) to_url
      | none => createView env st data url none to_url
  | _ => ⟨[], st, some .typeError⟩

/-- Consumer.insert_component of ryzom/consumers.py: sends one DDP
envelope of inner type insert or change carrying data.instance. -/
def insert_component (st : ConsumerState) (data : Json) (change : Bool) : Outcome :=
  match data.getKey "instance" with
  | .error e => ⟨[], st, some e⟩
  | .ok inst =>
    ⟨[.obj [("type", .str "DDP"),
      ("params", .obj [("type", .str (if change then "change" else "insert")),
        ("params", inst)])]], st, none⟩

/-- Consumer.remove_component of ryzom/consumers.py: sends one DDP
envelope of inner type remove carrying the _id and parent of the
component to remove. -/
def remove_component (st : ConsumerState) (data : Json) : Outcome :=
  match data.getKey "_id" with
  | .error e => ⟨[], st, some e⟩
  | .ok cid =>
  match data.getKey "parent" with
  | .error e => ⟨[], st, some e⟩
  | .ok parent =>
    ⟨[.obj [("type", .str "DDP"),
      ("params", .obj [("type", .str "remove"),
        ("params", .obj [("_id", cid), ("parent", parent)])])]], st, none⟩

/-- Consumer.handle_ddp of ryzom/consumers.py: dispatches a channel
layer push on params.type; inserted and changed go to
insert_component, removed to remove_component, anything else is
ignored (the if chain has no final else). -/
def handle_ddp (st : ConsumerState) (data : Json) : Outcome :=
  match data.getKey "params" with
  | .error e => ⟨[], st, some e⟩
  | .ok params =>
  match params.getKey "type" with
  | .error e => ⟨[], st, some e⟩
  | .ok t =>
  match t with
  | .str s =>
    if s == "inserted" then insert_component st params false
    else if s == "changed" then insert_component st params true
    else if s == "removed" then remove_component st params
    else ⟨[], st, none⟩
  | _ => ⟨[], st, none⟩

/-- Membership test msg_type in the list of the four known request
types; a non-string value compares unequal to every entry. -/
def isKnownType (t : Json) : Bool :=
  match t with
  | .str s => s == "subscribe" || s == "unsubscribe" || s == "method" || s == "geturl"
  | _ => false

/-- Lookup getattr(self, recv_ + msg_type) followed by the call: runs
the handler matching a known message type. -/
def dispatchType (env : Env) (st : ConsumerState) (t : Json) (data : Json) : Outcome :=
  match t with
  | .str s =>
    if s == "subscribe" then recv_subscribe st data
    else if s == "unsubscribe" then recv_unsubscribe st data
    else if s == "method" then recv_method env st data
    else if s == "geturl" then recv_geturl env st data
    else ⟨[], st, none⟩
  | _ => ⟨[], st, none⟩

/-- Consumer.receive of ryzom/consumers.py: returns silently when
data.get of _id is falsy; answers a Bad message Error when the type
key is absent; for a known type runs the handler, turning a KeyError
escaping it into a generic Bad format Error answer (other exceptions
propagate); for any other type value answers a Bad message type
Error. -/
def receive (env : Env) (st : ConsumerState) (data : Json) : Outcome :=
  match data with
  | .obj _ =>
    match data.get? "_id" with
    | none => ⟨[], st, none⟩
    | some i =>
      if i.truthy = false then ⟨[], st, none⟩
      else
        match data.get? "type" with
        | none =>
          ⟨[.obj [("_id", i), ("type", .str "Error"),
            ("params", .obj [("name", .str "Bad message"),
              ("message", .str "message type not found")])]], st, none⟩
        | some t =>
          if isKnownType t then
            let out := dispatchType env st t data
            match out.err with
            | some (.keyError _) =>
              ⟨out.sent ++ [.obj [("_id", i), ("type", .str "Error"),
                ("params", .obj [("name", .str "Bad format"),
                  ("message", .str "\"params\" key not found")])]], out.st, none⟩
            | _ => out
          else
            ⟨[.obj [("_id", i), ("type", .str "Error"),
              ("params", .obj [("name", .str "Bad message type"),
                ("message", .str (t.pyStrOf ++ " not recognized"))])]], st, none⟩
  | _ => ⟨[], st, some .attributeError⟩

/-- Sample environment used to instantiate the theorems on concrete
inputs: one registered method echoing its argument, one route matching
the paths /a and /b for view class 0, navigation always accepted,
rendering a fixed markup string. -/
def sampleEnv : Env :=
  ⟨[("echo", fun j => j)],
   [⟨fun u => u == "/a" || u == "/b", 0⟩],
   fun _ _ => true,
   fun _ _ => .str "markup"⟩

/-- Sample consumer state: one Clients row for this channel, one
publication named todos, subscription counter at 5, no view yet. -/
def sampleSt : ConsumerState :=
  ⟨"chan", [⟨1, "chan", none⟩], [], ["todos"], 5, none, 0, []⟩

/-- Sample consumer state already holding a view of class 0. -/
def sampleStView : ConsumerState :=
  ⟨"chan", [⟨1, "chan", none⟩], [], [], 0, some ⟨0, 0, "chan"⟩, 1, []⟩

/-- Sample consumer state whose Clients table has no row for this
channel. -/
def sampleStNoClient : ConsumerState :=
  ⟨"chan", [], [], ["todos"], 0, none, 0, []⟩

/-- Claim C8: a received message whose parsed envelope has no _id key
produces no response, changes no state and dispatches no handler. -/
theorem receive_missing_id_silent (env : Env) (st : ConsumerState)
    (fields : List (String × Json))
    (h : (Json.obj fields).get? "_id" = none) :
    receive env st (Json.obj fields) = ⟨[], st, none⟩ := by
  unfold receive
  rw [h]

/-- Witness for C8: a method request without _id is dropped silently. -/
theorem receive_missing_id_silent_witness :
    receive sampleEnv sampleSt (Json.obj [("type", .str "method")]) =
      ⟨[], sampleSt, none⟩ :=
  receive_missing_id_silent sampleEnv sampleSt [("type", .str "method")] rfl

/-- Claim C9: a received message whose _id key is present but falsy is
also dropped silently, exactly like an absent _id. -/
theorem receive_falsy_id_silent (env : Env) (st : ConsumerState)
    (fields : List (String × Json)) (i : Json)
    (h : (Json.obj fields).get? "_id" = some i)
    (hf : i.truthy = false) :
    receive env st (Json.obj fields) = ⟨[], st, none⟩ := by
  unfold receive
  rw [h]
  simp [hf]

/-- Witness for C9: the four falsy _id values of the claim, an empty
string, the number 0, null and false, are each dropped silently. -/
theorem receive_falsy_id_silent_witness :
    receive sampleEnv sampleSt (Json.obj [("_id", .str ""), ("type", .str "method")]) =
      ⟨[], sampleSt, none⟩ ∧
    receive sampleEnv sampleSt (Json.obj [("_id", .num 0), ("type", .str "method")]) =
      ⟨[], sampleSt, none⟩ ∧
    receive sampleEnv sampleSt (Json.obj [("_id", .null), ("type", .str "method")]) =
      ⟨[], sampleSt, none⟩ ∧
    receive sampleEnv sampleSt (Json.obj [("_id", .bool false), ("type", .str "method")]) =
      ⟨[], sampleSt, none⟩ :=
  ⟨receive_falsy_id_silent sampleEnv sampleSt _ (.str "") rfl rfl,
   receive_falsy_id_silent sampleEnv sampleSt _ (.num 0) rfl rfl,
   receive_falsy_id_silent sampleEnv sampleSt _ .null rfl rfl,
   receive_falsy_id_silent sampleEnv sampleSt _ (.bool false) rfl rfl⟩

/-- Claim C7: an unsubscribe request with a name in its params is
answered by exactly one unsubscribed acknowledgement envelope and the
state is returned unchanged: no Subscription row is deleted and no
other row is modified. -/
theorem recv_unsubscribe_ack (st : ConsumerState) (data params reqId nm : Json)
    (hp : data.getKey "params" = .ok params)
    (hi : data.getKey "_id" = .ok reqId)
    (hn : params.getKey "name" = .ok nm) :
    recv_unsubscribe st data =
      ⟨[Json.obj [("_id", reqId), ("type", .str "unsubscribed"),
          ("message", .str "Got unsub"), ("params", .obj [("name", nm)])]],
       st, none⟩ := by
  simp only [recv_unsubscribe, hp, hi, hn]

/-- Witness for C7: a concrete unsubscribe request is acknowledged and
the state is untouched. -/
theorem recv_unsubscribe_ack_witness :
    recv_unsubscribe sampleSt
      (Json.obj [("_id", .str "9"), ("type", .str "unsubscribe"),
        ("params", .obj [("name", .str "todos")])]) =
      ⟨[Json.obj [("_id", .str "9"), ("type", .str "unsubscribed"),
          ("message", .str "Got unsub"),
          ("params", .obj [("name", .str "todos")])]],
       sampleSt, none⟩ :=
  recv_unsubscribe_ack sampleSt _ _ _ _ rfl rfl rfl

/-- Claim C2: a method request naming a registered handler invokes it
on params.params and is answered by exactly one envelope correlated to
the request _id, a Success envelope carrying the return value when it
is truthy and an Error envelope carrying that same value when it is
falsy. -/
theorem recv_method_result (env : Env) (st : ConsumerState)
    (data reqId params arg : Json) (name : String)
    (m : String × (Json → Json))
    (hi : data.getKey "_id" = .ok reqId)
    (hp : data.getKey "params" = .ok params)
    (hn : params.getKey "name" = .ok (.str name))
    (hm : env.server_methods.find? (fun f => f.1 == name) = some m)
    (ha : params.getKey "params" = .ok arg) :
    recv_method env st data =
      ⟨[Json.obj [("_id", reqId),
          ("type", .str (if (m.2 arg).truthy then "Success" else "Error")),
          ("params", m.2 arg)]], st, none⟩ := by
  simp only [recv_method, hi, hp, hn, hm, ha]
  cases h : (m.2 arg).truthy <;> simp [h]

/-- Witness for C2: calling the registered echo method with a truthy
argument yields a Success envelope carrying it, and with a falsy
argument an Error envelope carrying it. -/
theorem recv_method_result_witness :
    recv_method sampleEnv sampleSt
      (Json.obj [("_id", .str "3"), ("type", .str "method"),
        ("params", .obj [("name", .str "echo"), ("params", .num 4)])]) =
      ⟨[Json.obj [("_id", .str "3"), ("type", .str "Success"),
          ("params", .num 4)]], sampleSt, none⟩ ∧
    recv_method sampleEnv sampleSt
      (Json.obj [("_id", .str "3"), ("type", .str "method"),
        ("params", .obj [("name", .str "echo"), ("params", .null)])]) =
      ⟨[Json.obj [("_id", .str "3"), ("type", .str "Error"),
          ("params", .null)]], sampleSt, none⟩ :=
  ⟨recv_method_result sampleEnv sampleSt
      (Json.obj [("_id", .str "3"), ("type", .str "method"),
        ("params", .obj [("name", .str "echo"), ("params", .num 4)])])
      (.str "3") (.obj [("name", .str "echo"), ("params", .num 4)]) (.num 4)
      "echo" ("echo", fun j => j) rfl rfl rfl rfl rfl,
   recv_method_result sampleEnv sampleSt
      (Json.obj [("_id", .str "3"), ("type", .str "method"),
        ("params", .obj [("name", .str "echo"), ("params", .null)])])
      (.str "3") (.obj [("name", .str "echo"), ("params", .null)]) .null
      "echo" ("echo", fun j => j) rfl rfl rfl rfl rfl⟩

/-- Helper: a successful dictionary lookup means the key passes the
membership test over the field list. -/
theorem any_key_of_get?_some (fields : List (String × Json)) (k : String)
    (v : Json) (h : (Json.obj fields).get? k = some v) :
    fields.any (fun f => f.1 == k) = true := by
  simp only [Json.get?] at h
  cases hf : fields.find? (fun f => f.1 == k) with
  | none => rw [hf] at h; cases h
  | some f =>
    have hmem := List.mem_of_find?_eq_some hf
    have hpf := List.find?_some hf
    exact List.any_eq_true.mpr ⟨f, hmem, hpf⟩

/-- Helper: a failed dictionary lookup means the key fails the
membership test over the field list. -/
theorem any_key_of_get?_none (fields : List (String × Json)) (k : String)
    (h : (Json.obj fields).get? k = none) :
    fields.any (fun f => f.1 == k) = false := by
  simp only [Json.get?] at h
  cases hf : fields.find? (fun f => f.1 == k) with
  | none =>
    rw [List.find?_eq_none] at hf
    simp only [List.any_eq_false]
    intro f hmem
    simp [hf f hmem]
  | some f => rw [hf] at h; cases h

/-- Helper: dictionary subscription agrees with a successful
lookup. -/
theorem getKey_of_get?_some (fields : List (String × Json)) (k : String)
    (v : Json) (h : (Json.obj fields).get? k = some v) :
    (Json.obj fields).getKey k = .ok v := by
  simp [Json.getKey, h]

/-- Claim C4: a subscribe request whose params object lacks name or
lacks _id, on a channel whose Clients row exists, is answered by
exactly one Bad format Error naming the first missing key in check
order name then _id, and the state is unchanged, so no Subscription
row is created. -/
theorem recv_subscribe_missing_key (st : ConsumerState) (data : Json)
    (pfields : List (String × Json)) (reqId : Json) (client : Client)
    (hp : data.getKey "params" = .ok (.obj pfields))
    (hi : data.getKey "_id" = .ok reqId)
    (hc : Clients.get st = .ok client)
    (hmiss : (Json.obj pfields).get? "name" = none ∨
      (Json.obj pfields).get? "_id" = none) :
    recv_subscribe st data =
      ⟨[Json.obj [("_id", reqId), ("type", .str "Error"),
          ("params", .obj [("name", .str "Bad format"),
            ("message", .str ("Subscription " ++
              (if ((Json.obj pfields).get? "name").isNone then "name" else "_id") ++
              " not found"))])]], st, none⟩ := by
  cases hn : (Json.obj pfields).get? "name" with
  | none =>
    have ha := any_key_of_get?_none pfields "name" hn
    simp [recv_subscribe, hp, hi, hc, pyContains, ha, hn]
  | some nameJson =>
    have ha := any_key_of_get?_some pfields "name" nameJson hn
    rcases hmiss with h | h
    · rw [hn] at h; cases h
    · have hb := any_key_of_get?_none pfields "_id" h
      simp [recv_subscribe, hp, hi, hc, pyContains, ha, hb, hn]

/-- Witness for C4: a subscribe request with an empty params object on
a channel whose Clients row exists is refused naming the key name. -/
theorem recv_subscribe_missing_key_witness :
    recv_subscribe sampleSt
      (Json.obj [("_id", .str "2"), ("type", .str "subscribe"),
        ("params", .obj [])]) =
      ⟨[Json.obj [("_id", .str "2"), ("type", .str "Error"),
          ("params", .obj [("name", .str "Bad format"),
            ("message", .str "Subscription name not found")])]],
       sampleSt, none⟩ :=
  recv_subscribe_missing_key sampleSt
    (Json.obj [("_id", .str "2"), ("type", .str "subscribe"),
      ("params", .obj [])])
    [] (.str "2") ⟨1, "chan", none⟩
    rfl rfl rfl (Or.inl rfl)

/-- Claim C1: a subscribe request carrying both name and _id, for an
existing publication and on a channel whose Clients row exists,
appends exactly one Subscription row linking that publication, the
client-supplied parent and the client, calls init on the subscription
before saving it (trace order), and is answered by exactly one Success
envelope correlated to the request _id whose params carry the
publication name and the id of the new subscription. -/
theorem recv_subscribe_success (st : ConsumerState)
    (data params reqId parent : Json) (pubName : String) (client : Client)
    (hp : data.getKey "params" = .ok params)
    (hi : data.getKey "_id" = .ok reqId)
    (hc : Clients.get st = .ok client)
    (hn : params.get? "name" = some (.str pubName))
    (hid : params.get? "_id" = some parent)
    (hpub : st.publications.contains pubName = true) :
    recv_subscribe st data =
      ⟨[Json.obj [("_id", reqId), ("type", .str "Success"),
          ("params", .obj [("name", .str pubName),
            ("sub_id", .num (Int.ofNat st.nextSubId))])]],
       { st with
         subscriptions :=
           st.subscriptions ++ [⟨st.nextSubId, pubName, parent, client.id⟩],
         nextSubId := st.nextSubId + 1,
         trace := st.trace ++
           [Event.subInit pubName parent client.id,
            Event.subSaved pubName parent client.id st.nextSubId] },
       none⟩ := by
  cases params with
  | obj pfields =>
    have ha := any_key_of_get?_some pfields "name" (.str pubName) hn
    have hb := any_key_of_get?_some pfields "_id" parent hid
    have hkn := getKey_of_get?_some pfields "name" (.str pubName) hn
    have hki := getKey_of_get?_some pfields "_id" parent hid
    simp only [recv_subscribe, hp, hi, hc, pyContains, ha, hb, clientTruthy,
      hkn, hki, Publications.get, hpub, if_true]
    simp [List.append_assoc]
  | null => simp [Json.get?] at hn
  | bool b => simp [Json.get?] at hn
  | num n => simp [Json.get?] at hn
  | str s => simp [Json.get?] at hn
  | arr items => simp [Json.get?] at hn

/-- Witness for C1: a concrete subscribe request on the sample state
creates the subscription row with id 5, traces init before save, and
is answered by one Success envelope carrying name todos and sub_id
5. -/
theorem recv_subscribe_success_witness :
    recv_subscribe sampleSt
      (Json.obj [("_id", .str "1"), ("type", .str "subscribe"),
        ("params", .obj [("name", .str "todos"), ("_id", .str "root")])]) =
      ⟨[Json.obj [("_id", .str "1"), ("type", .str "Success"),
          ("params", .obj [("name", .str "todos"), ("sub_id", .num 5)])]],
       { sampleSt with
         subscriptions := sampleSt.subscriptions ++ [⟨5, "todos", .str "root", 1⟩],
         nextSubId := 6,
         trace := sampleSt.trace ++
           [Event.subInit "todos" (.str "root") 1,
            Event.subSaved "todos" (.str "root") 1 5] },
       none⟩ :=
  recv_subscribe_success sampleSt
    (Json.obj [("_id", .str "1"), ("type", .str "subscribe"),
      ("params", .obj [("name", .str "todos"), ("_id", .str "root")])])
    (.obj [("name", .str "todos"), ("_id", .str "root")])
    (.str "1") (.str "root") "todos" ⟨1, "chan", none⟩
    rfl rfl rfl rfl rfl rfl

/-- Claim C5, evaluated at its failing input: a well-formed subscribe
request on a channel whose Clients table has no row makes
Clients.objects.get raise DoesNotExist before any key check, so
recv_subscribe sends nothing at all, and receive does not catch the
exception either (it only catches KeyError): no Client not found Error
envelope is ever produced, although the dead `if not client` branch of
the source shows it was intended. -/
theorem recv_subscribe_no_client_raises :
    recv_subscribe sampleStNoClient
      (Json.obj [("_id", .str "1"), ("type", .str "subscribe"),
        ("params", .obj [("name", .str "todos"), ("_id", .str "root")])]) =
      ⟨[], sampleStNoClient, some (.doesNotExist "Clients")⟩ ∧
    receive sampleEnv sampleStNoClient
      (Json.obj [("_id", .str "1"), ("type", .str "subscribe"),
        ("params", .obj [("name", .str "todos"), ("_id", .str "root")])]) =
      ⟨[], sampleStNoClient, some (.doesNotExist "Clients")⟩ :=
  ⟨rfl, rfl⟩

/-- Counterexample for C6: at a concrete geturl request matching the
route class of the live view, with navigation accepted, the single
Success response carries the empty list as params, and the empty list
is a different JSON value from the empty object the claim states. -/
theorem recv_geturl_navigate_array_counterexample :
    recv_geturl sampleEnv sampleStView
      (Json.obj [("_id", .str "7"), ("type", .str "geturl"),
        ("params", .obj [("url", .str "/b")])]) =
      ⟨[Json.obj [("_id", .str "7"), ("type", .str "Success"),
          ("params", .arr [])]], sampleStView, none⟩ ∧
    Json.arr [] ≠ Json.obj [] :=
  ⟨rfl, fun h => Json.noConfusion h⟩

/-- Claim C6 as amended: when the first route matching params.url has
the same view class as the live view, recv_geturl delegates to onurl;
when onurl is truthy exactly one Success envelope correlated to the
request _id is sent whose params is the empty array (an empty JSON
list, not an empty object), and the state, hence the view instance, is
unchanged; when onurl is falsy nothing at all is sent and the state
is also unchanged. -/
theorem recv_geturl_navigate (env : Env) (st : ConsumerState)
    (data params reqId : Json) (to_url : String) (url : Route) (v : View)
    (hp : data.getKey "params" = .ok params)
    (hu : params.getKey "url" = .ok (.str to_url))
    (hroute : env.ddp_urlpatterns.find? (fun r => r.pattern to_url) = some url)
    (hview : st.view = some v)
    (hcls : v.cls = url.callback)
    (hi : data.getKey "_id" = .ok reqId) :
    recv_geturl env st data =
      (if env.onurl v.cls to_url then
        ⟨[Json.obj [("_id", reqId), ("type", .str "Success"),
            ("params", .arr [])]], st, none⟩
      else ⟨[], st, none⟩) := by
  simp only [recv_geturl, hp, hu, hroute, hview, hcls, hi, beq_self_eq_true,
    if_true]

/-- Witness for C6 as amended: on the sample state holding a view of
the matched class, with navigation accepted, exactly one Success
envelope with empty array params is sent and the state is returned
unchanged. -/
theorem recv_geturl_navigate_witness :
    recv_geturl sampleEnv sampleStView
      (Json.obj [("_id", .str "8"), ("type", .str "geturl"),
        ("params", .obj [("url", .str "/a")])]) =
      ⟨[Json.obj [("_id", .str "8"), ("type", .str "Success"),
          ("params", .arr [])]], sampleStView, none⟩ := by
  have h := recv_geturl_navigate sampleEnv sampleStView
    (Json.obj [("_id", .str "8"), ("type", .str "geturl"),
      ("params", .obj [("url", .str "/a")])])
    (.obj [("url", .str "/a")]) (.str "8") "/a"
    ⟨fun u => u == "/a" || u == "/b", 0⟩ ⟨0, 0, "chan"⟩
    rfl rfl rfl rfl rfl rfl
  simpa using h

/-- Claim C10: a handle.ddp push whose params.type is none of
inserted, changed, removed sends nothing and leaves the state
unchanged, while each of the three known types, given its expected
payload keys, produces exactly one outbound DDP envelope (inner type
insert, change or remove with the corresponding payload) and no state
change. -/
theorem handle_ddp_types (st : ConsumerState) (data params t : Json)
    (hp : data.getKey "params" = .ok params)
    (ht : params.getKey "type" = .ok t) :
    ((t ≠ .str "inserted" ∧ t ≠ .str "changed" ∧ t ≠ .str "removed") →
      handle_ddp st data = ⟨[], st, none⟩) ∧
    (∀ inst, params.getKey "instance" = .ok inst → t = .str "inserted" →
      handle_ddp st data =
        ⟨[Json.obj [("type", .str "DDP"),
            ("params", .obj [("type", .str "insert"), ("params", inst)])]],
         st, none⟩) ∧
    (∀ inst, params.getKey "instance" = .ok inst → t = .str "changed" →
      handle_ddp st data =
        ⟨[Json.obj [("type", .str "DDP"),
            ("params", .obj [("type", .str "change"), ("params", inst)])]],
         st, none⟩) ∧
    (∀ cid parent, params.getKey "_id" = .ok cid →
      params.getKey "parent" = .ok parent → t = .str "removed" →
      handle_ddp st data =
        ⟨[Json.obj [("type", .str "DDP"),
            ("params", .obj [("type", .str "remove"),
              ("params", .obj [("_id", cid), ("parent", parent)])])]],
         st, none⟩) := by
  refine ⟨?_, ?_, ?_, ?_⟩
  · rintro ⟨h1, h2, h3⟩
    cases t with
    | str s =>
      have e1 : (s == "inserted") = false := by
        simp only [beq_eq_false_iff_ne, ne_eq]
        intro e; exact h1 (by rw [e])
      have e2 : (s == "changed") = false := by
        simp only [beq_eq_false_iff_ne, ne_eq]
        intro e; exact h2 (by rw [e])
      have e3 : (s == "removed") = false := by
        simp only [beq_eq_false_iff_ne, ne_eq]
        intro e; exact h3 (by rw [e])
      simp [handle_ddp, hp, ht, e1, e2, e3]
    | null => simp [handle_ddp, hp, ht]
    | bool b => simp [handle_ddp, hp, ht]
    | num n => simp [handle_ddp, hp, ht]
    | arr items => simp [handle_ddp, hp, ht]
    | obj fields => simp [handle_ddp, hp, ht]
  · rintro inst hinst h
    subst h
    simp [handle_ddp, hp, ht, insert_component, hinst]
  · rintro inst hinst h
    subst h
    simp [handle_ddp, hp, ht, insert_component, hinst]
  · rintro cid parent hcid hparent h
    subst h
    simp [handle_ddp, hp, ht, remove_component, hcid, hparent]

/-- Witness for C10: a push of the unknown type moved is ignored,
while inserted, changed and removed pushes with their payloads each
produce exactly the corresponding single DDP envelope without state
change. -/
theorem handle_ddp_types_witness :
    handle_ddp sampleSt
      (Json.obj [("params", .obj [("type", .str "moved")])]) =
      ⟨[], sampleSt, none⟩ ∧
    handle_ddp sampleSt
      (Json.obj [("params", .obj [("type", .str "inserted"),
        ("instance", .str "c")])]) =
      ⟨[Json.obj [("type", .str "DDP"),
          ("params", .obj [("type", .str "insert"),
            ("params", .str "c")])]], sampleSt, none⟩ ∧
    handle_ddp sampleSt
      (Json.obj [("params", .obj [("type", .str "changed"),
        ("instance", .str "c")])]) =
      ⟨[Json.obj [("type", .str "DDP"),
          ("params", .obj [("type", .str "change"),
            ("params", .str "c")])]], sampleSt, none⟩ ∧
    handle_ddp sampleSt
      (Json.obj [("params", .obj [("type", .str "removed"),
        ("_id", .str "x"), ("parent", .str "root")])]) =
      ⟨[Json.obj [("type", .str "DDP"),
          ("params", .obj [("type", .str "remove"),
            ("params", .obj [("_id", .str "x"),
              ("parent", .str "root")])])]], sampleSt, none⟩ :=
  by
  refine ⟨?_, ?_, ?_, ?_⟩
  · exact (handle_ddp_types sampleSt
      (Json.obj [("params", .obj [("type", .str "moved")])])
      (.obj [("type", .str "moved")]) (.str "moved") rfl rfl).1
      ⟨by simp, by simp, by simp⟩
  · exact (handle_ddp_types sampleSt
      (Json.obj [("params", .obj [("type", .str "inserted"),
        ("instance", .str "c")])])
      (.obj [("type", .str "inserted"), ("instance", .str "c")])
      (.str "inserted") rfl rfl).2.1 (.str "c") rfl rfl
  · exact (handle_ddp_types sampleSt
      (Json.obj [("params", .obj [("type", .str "changed"),
        ("instance", .str "c")])])
      (.obj [("type", .str "changed"), ("instance", .str "c")])
      (.str "changed") rfl rfl).2.2.1 (.str "c") rfl rfl
  · exact (handle_ddp_types sampleSt
      (Json.obj [("params", .obj [("type", .str "removed"),
        ("_id", .str "x"), ("parent", .str "root")])])
      (.obj [("type", .str "removed"), ("_id", .str "x"),
        ("parent", .str "root")])
      (.str "removed") rfl rfl).2.2.2 (.str "x") (.str "root") rfl rfl rfl

/-- Helper: when recv_subscribe ends in a KeyError, it has sent
nothing before raising (every dictionary subscript of the handler
happens before its first send). -/
theorem recv_subscribe_keyError_sent (st : ConsumerState) (data : Json)
    (k : String) :
    (recv_subscribe st data).err = some (.keyError k) →
    (recv_subscribe st data).sent = [] := by
  unfold recv_subscribe
  repeat' split
  all_goals simp

/-- Helper: when recv_unsubscribe ends in a KeyError, it has sent
nothing before raising. -/
theorem recv_unsubscribe_keyError_sent (st : ConsumerState) (data : Json)
    (k : String) :
    (recv_unsubscribe st data).err = some (.keyError k) →
    (recv_unsubscribe st data).sent = [] := by
  unfold recv_unsubscribe
  repeat' split
  all_goals simp

/-- Helper: when recv_method ends in a KeyError, it has sent nothing
before raising. -/
theorem recv_method_keyError_sent (env : Env) (st : ConsumerState)
    (data : Json) (k : String) :
    (recv_method env st data).err = some (.keyError k) →
    (recv_method env st data).sent = [] := by
  unfold recv_method
  repeat' split
  all_goals intro h
  all_goals try rfl
  all_goals try simp at h
  all_goals dsimp only at h ⊢
  all_goals split at h <;> simp_all

/-- Helper: when the view replacement branch ends in a KeyError, it
has sent nothing before raising. -/
theorem createView_keyError_sent (env : Env) (st : ConsumerState)
    (data : Json) (url : Route) (cview : Option View) (to_url : String)
    (k : String) :
    (createView env st data url cview to_url).err = some (.keyError k) →
    (createView env st data url cview to_url).sent = [] := by
  unfold createView
  repeat' split
  all_goals simp

/-- Helper: when recv_geturl ends in a KeyError, it has sent nothing
before raising. -/
theorem recv_geturl_keyError_sent (env : Env) (st : ConsumerState)
    (data : Json) (k : String) :
    (recv_geturl env st data).err = some (.keyError k) →
    (recv_geturl env st data).sent = [] := by
  unfold recv_geturl
  repeat' split
  all_goals first
    | simp
    | exact createView_keyError_sent env st data _ _ _ k

/-- Helper: when the dispatched handler of a known message type ends
in a KeyError, no message has been sent by it. -/
theorem dispatchType_keyError_sent (env : Env) (st : ConsumerState)
    (t data : Json) (k : String) :
    (dispatchType env st t data).err = some (.keyError k) →
    (dispatchType env st t data).sent = [] := by
  unfold dispatchType
  repeat' split
  all_goals first
    | exact recv_subscribe_keyError_sent st data k
    | exact recv_unsubscribe_keyError_sent st data k
    | exact recv_method_keyError_sent env st data k
    | exact recv_geturl_keyError_sent env st data k
    | simp

/-- Claim C3: a received envelope with a truthy _id and a recognized
type whose handler raises a KeyError, for any missing key k, is
answered by exactly one Error envelope correlated to the _id whose
params name Bad format and the fixed message about the params key; the
missing key name k does not appear in the response. -/
theorem receive_keyError_bad_format (env : Env) (st : ConsumerState)
    (fields : List (String × Json)) (i t : Json) (k : String)
    (hi : (Json.obj fields).get? "_id" = some i)
    (ht : i.truthy = true)
    (hty : (Json.obj fields).get? "type" = some t)
    (hknown : isKnownType t = true)
    (herr : (dispatchType env st t (Json.obj fields)).err =
      some (.keyError k)) :
    receive env st (Json.obj fields) =
      ⟨[Json.obj [("_id", i), ("type", .str "Error"),
          ("params", .obj [("name", .str "Bad format"),
            ("message", .str "\"params\" key not found")])]],
       (dispatchType env st t (Json.obj fields)).st, none⟩ := by
  have hsent := dispatchType_keyError_sent env st t (Json.obj fields) k herr
  unfold receive
  rw [hi]
  simp only [ht, hty, hknown, if_true, Bool.true_eq_false, if_false]
  rw [herr, hsent]
  simp

/-- Witness for C3: a method request without a params key makes the
handler raise KeyError on params, and the client gets the one generic
Bad format response. -/
theorem receive_keyError_bad_format_witness :
    receive sampleEnv sampleSt
      (Json.obj [("_id", .str "1"), ("type", .str "method")]) =
      ⟨[Json.obj [("_id", .str "1"), ("type", .str "Error"),
          ("params", .obj [("name", .str "Bad format"),
            ("message", .str "\"params\" key not found")])]],
       sampleSt, none⟩ :=
  receive_keyError_bad_format sampleEnv sampleSt
    [("_id", .str "1"), ("type", .str "method")]
    (.str "1") (.str "method") "params" rfl rfl rfl rfl rfl

end Ryzom
